import Mathlib

/-!
Verification of the elliptic structured O-grid generator
(`EllipticStructuredOgrid.py`, `AirfoilMesher.py`).

The grid arrays `x`, `y` (numpy `Nc × Nr` float arrays) are embedded as total
functions `ℕ → ℕ → ℚ`; all reads and writes performed by the code stay inside
`i < Nc`, `j < Nr`.  Floating-point numbers are idealised as rationals
(`1.8 = 9/5`, `1e-6 = 1/1000000`, `0.5 = 1/2`); numpy's division of zero by
zero (which yields `nan`) is represented by `ℚ`'s convention `0 / 0 = 0` and
is flagged in comments wherever it matters.
-/

/-- A structured grid: the pair of coordinate arrays `x`, `y` of
`createEllipticStructuredOGrid` (indexed `x i j` for `x[i, j]`). -/
@[ext]
structure Grid where
  x : ℕ → ℕ → ℚ
  y : ℕ → ℕ → ℚ

/-- `omega = 1.8` (EllipticStructuredOgrid.py line 194). -/
def omegaSOR : ℚ := 9/5

/-- `tolerance = 1e-6` (line 127). -/
def tolerance : ℚ := 1/1000000

/-- `max_iter = 5000` (line 126). -/
def maxIter : ℕ := 5000

/-- `Rfarfield = 20.0` (line 121): hard-coded inside the function. -/
def Rfarfield : ℚ := 20

/-- `Nr = 40` (line 122): the radial point count hard-coded inside
`createEllipticStructuredOGrid`, regardless of the `--Nr` option. -/
def internalNr : ℕ := 40

/-- Python's `(i - 1) % Nc` on ints: wraps `0` to `Nc - 1` (line 168). -/
def wrapPred (Nc i : ℕ) : ℕ := (((i : ℤ) - 1).emod (Nc : ℤ)).toNat

/-- `x_xi = 0.5*(x[ip,j] - x[im,j])` (line 174). -/
def x_xiAt (Nc : ℕ) (g : Grid) (i j : ℕ) : ℚ :=
  (1/2 : ℚ) * (g.x ((i + 1) % Nc) j - g.x (wrapPred Nc i) j)

/-- `x_eta = 0.5*(x[i,jp] - x[i,jm])` (line 175). -/
def x_etaAt (g : Grid) (i j : ℕ) : ℚ :=
  (1/2 : ℚ) * (g.x i (j + 1) - g.x i (j - 1))

/-- `y_xi = 0.5*(y[ip,j] - y[im,j])` (line 176). -/
def y_xiAt (Nc : ℕ) (g : Grid) (i j : ℕ) : ℚ :=
  (1/2 : ℚ) * (g.y ((i + 1) % Nc) j - g.y (wrapPred Nc i) j)

/-- `y_eta = 0.5*(y[i,jp] - y[i,jm])` (line 177). -/
def y_etaAt (g : Grid) (i j : ℕ) : ℚ :=
  (1/2 : ℚ) * (g.y i (j + 1) - g.y i (j - 1))

/-- `alpha = x_xi**2 + y_xi**2` (line 180). -/
def alphaAt (Nc : ℕ) (g : Grid) (i j : ℕ) : ℚ :=
  (x_xiAt Nc g i j) ^ 2 + (y_xiAt Nc g i j) ^ 2

/-- `beta = x_xi*x_eta + y_xi*y_eta` (line 181). -/
def betaAt (Nc : ℕ) (g : Grid) (i j : ℕ) : ℚ :=
  x_xiAt Nc g i j * x_etaAt g i j + y_xiAt Nc g i j * y_etaAt g i j

/-- `gamma = x_eta**2 + y_eta**2` (line 182). -/
def gammaAt (g : Grid) (i j : ℕ) : ℚ :=
  (x_etaAt g i j) ^ 2 + (y_etaAt g i j) ^ 2

/-- `x_xi_eta = 0.25*(x[ip,jp] - x[ip,jm] - x[im,jp] + x[im,jm])` (line 185). -/
def x_xi_etaAt (Nc : ℕ) (g : Grid) (i j : ℕ) : ℚ :=
  (1/4 : ℚ) * (g.x ((i + 1) % Nc) (j + 1) - g.x ((i + 1) % Nc) (j - 1)
    - g.x (wrapPred Nc i) (j + 1) + g.x (wrapPred Nc i) (j - 1))

/-- `y_xi_eta = 0.25*(y[ip,jp] - y[ip,jm] - y[im,jp] + y[im,jm])` (line 186). -/
def y_xi_etaAt (Nc : ℕ) (g : Grid) (i j : ℕ) : ℚ :=
  (1/4 : ℚ) * (g.y ((i + 1) % Nc) (j + 1) - g.y ((i + 1) % Nc) (j - 1)
    - g.y (wrapPred Nc i) (j + 1) + g.y (wrapPred Nc i) (j - 1))

/-- `denom = 2*(alpha + gamma)` (line 189). -/
def metricDenom (Nc : ℕ) (g : Grid) (i j : ℕ) : ℚ :=
  2 * (alphaAt Nc g i j + gammaAt g i j)

/-- `x_new = (alpha*(x[i,jp]+x[i,jm]) + gamma*(x[ip,j]+x[im,j])
 - 2*beta*x_xi_eta)/denom` (line 190).  In numpy a zero `denom` silently
yields `nan`/`inf`; in this `ℚ` embedding division by zero yields `0`. -/
def x_newAt (Nc : ℕ) (g : Grid) (i j : ℕ) : ℚ :=
  (alphaAt Nc g i j * (g.x i (j + 1) + g.x i (j - 1))
    + gammaAt g i j * (g.x ((i + 1) % Nc) j + g.x (wrapPred Nc i) j)
    - 2 * betaAt Nc g i j * x_xi_etaAt Nc g i j) / metricDenom Nc g i j

/-- `y_new = ...` (line 191), same shape as `x_new`. -/
def y_newAt (Nc : ℕ) (g : Grid) (i j : ℕ) : ℚ :=
  (alphaAt Nc g i j * (g.y i (j + 1) + g.y i (j - 1))
    + gammaAt g i j * (g.y ((i + 1) % Nc) j + g.y (wrapPred Nc i) j)
    - 2 * betaAt Nc g i j * y_xi_etaAt Nc g i j) / metricDenom Nc g i j

/-- The body of the inner loop (lines 173-196): the SOR write
`x[i,j] = (1-omega)*x[i,j] + omega*x_new` and the same for `y`.
Both `x_new` and `y_new` are computed from the current grid before either
assignment, exactly as in the source (the assignment to `x[i,j]` does not
feed into `y_new`). -/
def updateNode (Nc : ℕ) (g : Grid) (i j : ℕ) : Grid where
  x := fun a b =>
    if a = i ∧ b = j then (1 - omegaSOR) * g.x i j + omegaSOR * x_newAt Nc g i j
    else g.x a b
  y := fun a b =>
    if a = i ∧ b = j then (1 - omegaSOR) * g.y i j + omegaSOR * y_newAt Nc g i j
    else g.y a b

/-- The inner loop `for j in range(1, Nr-1)` (line 169) at a fixed `i`:
Gauss-Seidel, each update reads the grid produced by the previous one. -/
def sweepRow (Nc Nr : ℕ) (g : Grid) (i : ℕ) : Grid :=
  (List.range (Nr - 2)).foldl (fun h k => updateNode Nc h i (k + 1)) g

/-- One full smoothing sweep: the outer loop `for i in range(Nc)` (line 166)
around the inner loop over `j`. -/
def sweep (Nc Nr : ℕ) (g : Grid) : Grid :=
  (List.range Nc).foldl (fun h i => sweepRow Nc Nr h i) g

/-- `abs(x-x_old) + abs(y-y_old)` at one node (line 199). -/
def nodeDelta (g0 g1 : Grid) (i j : ℕ) : ℚ :=
  |g1.x i j - g0.x i j| + |g1.y i j - g0.y i j|

/-- Maximum of a list of rationals, starting from `0`.  All entries fed to it
are absolute values, so the `0` seed reproduces `np.max` exactly. -/
def maxList (l : List ℚ) : ℚ := l.foldl max 0

/-- `err = np.max(np.abs(x - x_old) + np.abs(y - y_old))` (line 199):
the maximum of the per-node deltas over the whole `Nc × Nr` array,
boundary rows included. -/
def errAll (Nc Nr : ℕ) (g0 g1 : Grid) : ℚ :=
  maxList ((List.range Nc).map (fun i =>
    maxList ((List.range Nr).map (fun j => nodeDelta g0 g1 i j))))

/-- The same maximum restricted to the free nodes `i < Nc`, `1 ≤ j ≤ Nr-2`. -/
def errFree (Nc Nr : ℕ) (g0 g1 : Grid) : ℚ :=
  maxList ((List.range Nc).map (fun i =>
    maxList ((List.range (Nr - 2)).map (fun j => nodeDelta g0 g1 i (j + 1)))))

/-- The iteration `for it in range(max_iter)` (lines 161-202) with `n` the
remaining budget and `it` the current iteration index.  The second component
records the only convergence signal the code emits: `some it` when the
`err < tolerance` break (and its print) fires at iteration `it`, `none` when
the budget is exhausted without it.  The snapshot `x_old`/`y_old` is the grid
at the top of the iteration; the sweep produces the next grid. -/
def gsRun (Nc Nr : ℕ) (tol : ℚ) : ℕ → ℕ → Grid → Grid × Option ℕ
  | 0, _, g => (g, none)
  | n + 1, it, g =>
    if errAll Nc Nr g (sweep Nc Nr g) < tol then (sweep Nc Nr g, some it)
    else gsRun Nc Nr tol n (it + 1) (sweep Nc Nr g)

/-- Line 204: `exportToGmsh(x, y)` receives the final arrays unconditionally;
the convergence signal plays no part in what is handed on (and the Python
function itself returns `None`). -/
def exportedGrid (r : Grid × Option ℕ) : Grid := r.1

/-- Lines 142-157: zero-initialised arrays, inner boundary written into row
`j = 0`, outer boundary into row `j = Nr-1`, then the linear blend
`x[:,j] = (1-s)*x[:,0] + s*x[:,-1]` with `s = j/(Nr-1)` for `1 ≤ j ≤ Nr-2`.
The branch order mirrors the write order of the source (the outer boundary
write comes after the inner one, so it wins when `Nr - 1 = 0`). -/
def buildInitGrid (Nr : ℕ) (xin yin xout yout : ℕ → ℚ) : Grid where
  x := fun i j =>
    if 1 ≤ j ∧ j ≤ Nr - 2 then
      (1 - (j : ℚ) / ((Nr : ℚ) - 1)) * xin i + ((j : ℚ) / ((Nr : ℚ) - 1)) * xout i
    else if j = Nr - 1 then xout i
    else if j = 0 then xin i
    else 0
  y := fun i j =>
    if 1 ≤ j ∧ j ≤ Nr - 2 then
      (1 - (j : ℚ) / ((Nr : ℚ) - 1)) * yin i + ((j : ℚ) / ((Nr : ℚ) - 1)) * yout i
    else if j = Nr - 1 then yout i
    else if j = 0 then yin i
    else 0

/-- Lines 130-133: `x_airfoil = np.append(xCoords[::-1], xCoords[1:-1])` —
the reversed upper abscissae followed by the lower ones with the leading- and
trailing-edge samples dropped. -/
def xairfoil (xCoords : List ℚ) : List ℚ :=
  xCoords.reverse ++ (xCoords.drop 1).dropLast

/-- Line 134: `y_airfoil = np.append(yUpper[::-1], yLower[1:-1])`. -/
def yairfoil (yUpper yLower : List ℚ) : List ℚ :=
  yUpper.reverse ++ (yLower.drop 1).dropLast

/-- Line 137: `Nc = len(x_airfoil)` — the circumferential point count handed
to the smoother. -/
def NcOf (xCoords : List ℚ) : ℕ := (xairfoil xCoords).length

/-- AirfoilMesher.py line 44: `nPoints = int(Nc / 2) + 1` — points per
airfoil surface produced by `NACA4`. -/
def nPoints (Nc : ℕ) : ℕ := Nc / 2 + 1

/-- AirfoilMesher.py line 48 (`UNIFORM` spacing):
`xCoords = np.linspace(0.0, 1.0, nPoints)`. -/
def xCoordsUniform (Nc : ℕ) : List ℚ :=
  (List.range (nPoints Nc)).map (fun (k : ℕ) => (k : ℚ) / ((nPoints Nc : ℚ) - 1))

/-- Gmsh exporter, `exportToGmsh` lines 25-29: node ids `j*Nc + i + 1`. -/
def nodeId (Nc i j : ℕ) : ℕ := j * Nc + i + 1

/-- Lines 25-29: the node list, `j` outer, `i` inner, each node carrying its
id and coordinates. -/
def gmshNodes (Nc Nr : ℕ) (g : Grid) : List (ℕ × ℚ × ℚ) :=
  (List.range Nr).flatMap (fun j => (List.range Nc).map (fun i =>
    (j * Nc + i + 1, g.x i j, g.y i j)))

/-- Lines 40-51: quadrilateral connectivity, `for j in range(Nr - 1)`,
`for i in range(Nc)`, `ip = (i+1) % Nc`, corners
`(j*Nc+i+1, j*Nc+ip+1, (j+1)*Nc+ip+1, (j+1)*Nc+i+1)`. -/
def gmshQuads (Nc Nr : ℕ) : List (ℕ × ℕ × ℕ × ℕ) :=
  (List.range (Nr - 1)).flatMap (fun j => (List.range Nc).map (fun i =>
    (j * Nc + i + 1, j * Nc + (i + 1) % Nc + 1,
     (j + 1) * Nc + (i + 1) % Nc + 1, (j + 1) * Nc + i + 1)))

/-- The quadrilateral list exactly as the claim words it: connectivity
`(i,j)-(ip,j)-(ip,j+1)-(i,j+1)` via the linear ids, but with `j` ranging over
`[0, Nr-2)` as the claim (and the spec sentence) states. -/
def gmshQuadsClaim (Nc Nr : ℕ) : List (ℕ × ℕ × ℕ × ℕ) :=
  (List.range (Nr - 2)).flatMap (fun j => (List.range Nc).map (fun i =>
    (nodeId Nc i j, nodeId Nc ((i + 1) % Nc) j,
     nodeId Nc ((i + 1) % Nc) (j + 1), nodeId Nc i (j + 1))))

/-- The claim's quadrilateral list with the `j` range repaired to
`[0, Nr-1)`, which is what the source's `for j in range(Nr - 1)` does. -/
def gmshQuadsSpecFixed (Nc Nr : ℕ) : List (ℕ × ℕ × ℕ × ℕ) :=
  (List.range (Nr - 1)).flatMap (fun j => (List.range Nc).map (fun i =>
    (nodeId Nc i j, nodeId Nc ((i + 1) % Nc) j,
     nodeId Nc ((i + 1) % Nc) (j + 1), nodeId Nc i (j + 1))))

/-- Lines 70-78: airfoil boundary edges `(i+1, ip+1)` for `i in range(Nc)`
(node ids of `(i,0)` and `(ip,0)`). -/
def airfoilEdges (Nc : ℕ) : List (ℕ × ℕ) :=
  (List.range Nc).map (fun i => (i + 1, (i + 1) % Nc + 1))

/-- Lines 81-90: far-field boundary edges with `offset = (Nr-1)*Nc`. -/
def farfieldEdges (Nc Nr : ℕ) : List (ℕ × ℕ) :=
  (List.range Nc).map (fun i =>
    ((Nr - 1) * Nc + i + 1, (Nr - 1) * Nc + (i + 1) % Nc + 1))

/-- The claim's inner edge group, written via the linear ids of
`(i,0)` and `(ip,0)`. -/
def airfoilEdgesSpec (Nc : ℕ) : List (ℕ × ℕ) :=
  (List.range Nc).map (fun i => (nodeId Nc i 0, nodeId Nc ((i + 1) % Nc) 0))

/-- The claim's outer edge group, the ids of `(i,Nr-1)` and `(ip,Nr-1)`. -/
def farfieldEdgesSpec (Nc Nr : ℕ) : List (ℕ × ℕ) :=
  (List.range Nc).map (fun i =>
    (nodeId Nc i (Nr - 1), nodeId Nc ((i + 1) % Nc) (Nr - 1)))

/-- Line 111: physical name of the inner boundary group. -/
def airfoilPhysicalName : String := "airfoil"

/-- Line 114: physical name of the outer boundary group. -/
def farfieldPhysicalName : String := "farfield"

/-- The error kinds named by the specification (spec section 7).  None of
them exists anywhere in the source. -/
inductive MeshError where
  | invalidGeometry
  | invalidConfig
  | degenerateGeometry
deriving DecidableEq

/-- Follows the spec's words (refinement target for the per-node update):
"`α+γ = 0` ... the solver must detect and fail with `DegenerateGeometry`
rather than dividing by zero".  The source has no such guard. -/
def updateNodeGuardedSpec (Nc : ℕ) (g : Grid) (i j : ℕ) : Except MeshError Grid :=
  if alphaAt Nc g i j + gammaAt g i j = 0 then
    Except.error MeshError.degenerateGeometry
  else
    Except.ok (updateNode Nc g i j)

/-- Follows the spec's words (refinement target for input validation,
spec sections 4.1, 4.2 and 7): `InvalidGeometry` if the surfaces have
`N < 2` points or the shared leading and trailing edge samples do not coincide
within a tolerance, `InvalidConfig` if `R ≤ 1` or `Nc < 3`; all checked
before any iteration.  The source performs none of these checks. -/
def checkInputsSpec (xCoords yUpper yLower : List ℚ) (R : ℚ) (Nc : ℕ)
    (geomTol : ℚ) : Except MeshError Unit :=
  if xCoords.length < 2 then Except.error MeshError.invalidGeometry
  else if geomTol < |yUpper.getD 0 0 - yLower.getD 0 0| ∨
      geomTol < |yUpper.getD (yUpper.length - 1) 0
                  - yLower.getD (yLower.length - 1) 0| then
    Except.error MeshError.invalidGeometry
  else if R ≤ 1 ∨ Nc < 3 then Except.error MeshError.invalidConfig
  else Except.ok ()

/-- The per-node update exactly as claim C1 / spec section 4.4 word it:
periodic neighbours `ip = (i+1) mod Nc`, `im = (i-1) mod Nc`, clamped
`jp = j+1`, `jm = j-1`, central differences written as halved differences,
metric coefficients, the cross derivative as a quartered difference, the
unrelaxed value, then SOR with `omega = 1.8`. -/
def updateNodeSpec (Nc : ℕ) (g : Grid) (i j : ℕ) : Grid :=
  let ip := (i + 1) % Nc
  let im := wrapPred Nc i
  let jp := j + 1
  let jm := j - 1
  let x_xi := (g.x ip j - g.x im j) / 2
  let x_eta := (g.x i jp - g.x i jm) / 2
  let y_xi := (g.y ip j - g.y im j) / 2
  let y_eta := (g.y i jp - g.y i jm) / 2
  let alpha := x_xi ^ 2 + y_xi ^ 2
  let beta := x_xi * x_eta + y_xi * y_eta
  let gamma := x_eta ^ 2 + y_eta ^ 2
  let x_xi_eta := (g.x ip jp - g.x ip jm - g.x im jp + g.x im jm) / 4
  let y_xi_eta := (g.y ip jp - g.y ip jm - g.y im jp + g.y im jm) / 4
  let x_new := (alpha * (g.x i jp + g.x i jm) + gamma * (g.x ip j + g.x im j)
    - 2 * beta * x_xi_eta) / (2 * (alpha + gamma))
  let y_new := (alpha * (g.y i jp + g.y i jm) + gamma * (g.y ip j + g.y im j)
    - 2 * beta * y_xi_eta) / (2 * (alpha + gamma))
  { x := fun a b =>
      if a = i ∧ b = j then (1 - omegaSOR) * g.x i j + omegaSOR * x_new
      else g.x a b
    y := fun a b =>
      if a = i ∧ b = j then (1 - omegaSOR) * g.y i j + omegaSOR * y_new
      else g.y a b }

/-- One sweep as claim C1 words it: outer loop `i` from `0` to `Nc-1`,
inner loop `j` from `1` to `Nr-2`, in place (Gauss-Seidel). -/
def sweepSpec (Nc Nr : ℕ) (g : Grid) : Grid :=
  (List.range Nc).foldl
    (fun h i => (List.range (Nr - 2)).foldl
      (fun h2 k => updateNodeSpec Nc h2 i (k + 1)) h) g

/-- The all-zero grid (used as a small concrete test state). -/
def gridZero : Grid where
  x := fun _ _ => 0
  y := fun _ _ => 0

/-- A fully degenerate grid: every node at the point `(1, 1)` — e.g. inner
and outer boundary collapsed onto one point.  At every free node
`alpha + gamma = 0`. -/
def gridDeg : Grid where
  x := fun _ _ => 1
  y := fun _ _ => 1

/-- A simple non-degenerate grid used as a witness state. -/
def gridW : Grid where
  x := fun i _ => (i : ℚ)
  y := fun _ j => (j : ℚ)

/-- `cos(2*pi*i/4)` for integer `i` (exact values for the four right angles). -/
def cos4 (i : ℕ) : ℚ :=
  if i % 4 = 0 then 1 else if i % 4 = 1 then 0 else if i % 4 = 2 then -1 else 0

/-- `sin(2*pi*i/4)` for integer `i`. -/
def sin4 (i : ℕ) : ℚ :=
  if i % 4 = 0 then 0 else if i % 4 = 1 then 1 else if i % 4 = 2 then 0 else -1

/-- The radii of the linear-interpolation grid between the unit circle and
the concentric circle of radius `R = 2` with `Nr = 3`:
`r j = (1 - j/2)*1 + (j/2)*2 = 1 + j/2`. -/
def rLin (j : ℕ) : ℚ := 1 + (j : ℚ) / 2

/-- Claim C9's scenario at `Nc = 4`, `Nr = 3`, `R = 2`: inner boundary the
unit circle sampled at angles `0, pi/2, pi, 3pi/2` (all coordinates exact
rationals), outer boundary the concentric circle of radius `2` with the same
angular sampling, interior filled by the linear blend. -/
def gridCircle : Grid where
  x := fun i j => rLin j * cos4 i
  y := fun i j => rLin j * sin4 i

/-- The grid the source builds when handed the invalid single-point input
`xCoords = yUpper = yLower = [0]`: the deduplicated loop is `[0]` (`Nc = 1`),
`Nr` is the hard-coded `40`, and the far-field circle at `Nc = 1` is the one
point `(20*cos 0 + 0.5, 20*sin 0) = (41/2, 0)`. -/
def gridSingleton : Grid :=
  buildInitGrid 40 (fun _ => 0) (fun _ => 0) (fun _ => 41/2) (fun _ => 0)

/-- The number of parameters of
`def createEllipticStructuredOGrid(xCoords, yUpper, yLower)`
(EllipticStructuredOgrid.py line 118). -/
def createEllipticParamCount : ℕ := 3

/-- The number of arguments of the call
`createEllipticStructuredOGrid(xCoords, yUpper, yLower, Nr)`
(AirfoilMesher.py line 167). -/
def ellipticCallArgCount : ℕ := 4

/-- A fold leaves an observation `q` unchanged when every step does. -/
lemma foldl_fix {α β : Type} (f : Grid → α → Grid) (q : Grid → β) :
    ∀ (l : List α) (g : Grid), (∀ h a, a ∈ l → q (f h a) = q h) →
      q (l.foldl f g) = q g := by
  intro l
  induction l with
  | nil => intro g _; rfl
  | cons a l ih =>
    intro g hstep
    rw [List.foldl_cons, ih (f g a) (fun h b hb => hstep h b (List.mem_cons_of_mem a hb))]
    exact hstep g a (List.mem_cons_self a l)

/-- A per-node update leaves every other entry of `x` unchanged. -/
lemma updateNode_x_ne (Nc : ℕ) (g : Grid) (i j a b : ℕ) (h : ¬(a = i ∧ b = j)) :
    (updateNode Nc g i j).x a b = g.x a b := by
  simp only [updateNode, if_neg h]

/-- A per-node update leaves every other entry of `y` unchanged. -/
lemma updateNode_y_ne (Nc : ℕ) (g : Grid) (i j a b : ℕ) (h : ¬(a = i ∧ b = j)) :
    (updateNode Nc g i j).y a b = g.y a b := by
  simp only [updateNode, if_neg h]

/-- The inner loop writes only to row `i`, columns `1 ≤ j ≤ Nr-2`. -/
lemma sweepRow_x_frame (Nc Nr : ℕ) (g : Grid) (i a b : ℕ)
    (h : ∀ k, k < Nr - 2 → ¬(a = i ∧ b = k + 1)) :
    (sweepRow Nc Nr g i).x a b = g.x a b := by
  unfold sweepRow
  exact foldl_fix _ (fun h2 => h2.x a b) _ g
    (fun h2 k hk => updateNode_x_ne Nc h2 i (k + 1) a b (h k (List.mem_range.mp hk)))

/-- The inner loop writes only to row `i`, columns `1 ≤ j ≤ Nr-2` (`y` part). -/
lemma sweepRow_y_frame (Nc Nr : ℕ) (g : Grid) (i a b : ℕ)
    (h : ∀ k, k < Nr - 2 → ¬(a = i ∧ b = k + 1)) :
    (sweepRow Nc Nr g i).y a b = g.y a b := by
  unfold sweepRow
  exact foldl_fix _ (fun h2 => h2.y a b) _ g
    (fun h2 k hk => updateNode_y_ne Nc h2 i (k + 1) a b (h k (List.mem_range.mp hk)))

/-- A sweep never writes to the boundary rows `j = 0`, `j = Nr-1`, nor to any
`i ≥ Nc`. -/
lemma sweep_x_frame (Nc Nr : ℕ) (g : Grid) (a b : ℕ)
    (hb : b = 0 ∨ Nr - 1 ≤ b ∨ Nc ≤ a) :
    (sweep Nc Nr g).x a b = g.x a b := by
  unfold sweep
  refine foldl_fix _ (fun h2 => h2.x a b) _ g ?_
  intro h2 i hi
  have hi2 := List.mem_range.mp hi
  refine sweepRow_x_frame Nc Nr h2 i a b ?_
  intro k hk hcontra
  obtain ⟨h1, h2c⟩ := hcontra
  omega

/-- Same as `sweep_x_frame`, `y` part. -/
lemma sweep_y_frame (Nc Nr : ℕ) (g : Grid) (a b : ℕ)
    (hb : b = 0 ∨ Nr - 1 ≤ b ∨ Nc ≤ a) :
    (sweep Nc Nr g).y a b = g.y a b := by
  unfold sweep
  refine foldl_fix _ (fun h2 => h2.y a b) _ g ?_
  intro h2 i hi
  have hi2 := List.mem_range.mp hi
  refine sweepRow_y_frame Nc Nr h2 i a b ?_
  intro k hk hcontra
  obtain ⟨h1, h2c⟩ := hcontra
  omega

/-- The whole iteration never writes to the boundary rows or out of range. -/
lemma gsRun_x_frame (Nc Nr : ℕ) (tol : ℚ) (n it : ℕ) (g : Grid) (a b : ℕ)
    (hb : b = 0 ∨ Nr - 1 ≤ b ∨ Nc ≤ a) :
    ((gsRun Nc Nr tol n it g).1).x a b = g.x a b := by
  induction n generalizing it g with
  | zero => rfl
  | succ n ih =>
    simp only [gsRun]
    split
    · exact sweep_x_frame Nc Nr g a b hb
    · rw [ih (it + 1) (sweep Nc Nr g)]
      exact sweep_x_frame Nc Nr g a b hb

/-- Same as `gsRun_x_frame`, `y` part. -/
lemma gsRun_y_frame (Nc Nr : ℕ) (tol : ℚ) (n it : ℕ) (g : Grid) (a b : ℕ)
    (hb : b = 0 ∨ Nr - 1 ≤ b ∨ Nc ≤ a) :
    ((gsRun Nc Nr tol n it g).1).y a b = g.y a b := by
  induction n generalizing it g with
  | zero => rfl
  | succ n ih =>
    simp only [gsRun]
    split
    · exact sweep_y_frame Nc Nr g a b hb
    · rw [ih (it + 1) (sweep Nc Nr g)]
      exact sweep_y_frame Nc Nr g a b hb

lemma foldl_max_assoc (l : List ℚ) : ∀ c d : ℚ, l.foldl max (max c d) = max c (l.foldl max d) := by
  induction l with
  | nil => intro c d; rfl
  | cons a l ih =>
    intro c d
    rw [List.foldl_cons, List.foldl_cons, max_assoc, ih]

lemma maxList_cons (a : ℚ) (l : List ℚ) : maxList (a :: l) = max a (maxList l) := by
  unfold maxList
  rw [List.foldl_cons, max_comm 0 a, foldl_max_assoc]

lemma maxList_nonneg (l : List ℚ) : 0 ≤ maxList l := by
  induction l with
  | nil => exact le_refl 0
  | cons a l ih =>
    rw [maxList_cons]
    exact le_max_of_le_right ih

lemma maxList_append (l1 l2 : List ℚ) :
    maxList (l1 ++ l2) = max (maxList l1) (maxList l2) := by
  induction l1 with
  | nil =>
    simp only [List.nil_append]
    rw [show maxList ([] : List ℚ) = 0 from rfl]
    exact (max_eq_right (maxList_nonneg l2)).symm
  | cons a l ih =>
    simp only [List.cons_append, maxList_cons, ih, max_assoc]

lemma le_maxList (l : List ℚ) (x : ℚ) (h : x ∈ l) : x ≤ maxList l := by
  induction l with
  | nil => cases h
  | cons a l ih =>
    rw [maxList_cons]
    rcases List.mem_cons.mp h with rfl | h2
    · exact le_max_left x (maxList l)
    · exact le_max_of_le_right (ih h2)

lemma maxList_eq_zero (l : List ℚ) (h : ∀ x ∈ l, x = 0) : maxList l = 0 := by
  induction l with
  | nil => rfl
  | cons a l ih =>
    rw [maxList_cons, h a (List.mem_cons_self a l),
      ih (fun x hx => h x (List.mem_cons_of_mem a hx))]
    exact max_self 0

lemma nodeDelta_self (g : Grid) (i j : ℕ) : nodeDelta g g i j = 0 := by
  simp [nodeDelta]

lemma nodeDelta_eq_zero (g0 g1 : Grid) (i j : ℕ)
    (hx : g1.x i j = g0.x i j) (hy : g1.y i j = g0.y i j) :
    nodeDelta g0 g1 i j = 0 := by
  simp [nodeDelta, hx, hy]

lemma errAll_self (Nc Nr : ℕ) (g : Grid) : errAll Nc Nr g g = 0 := by
  unfold errAll
  refine maxList_eq_zero _ ?_
  intro v hv
  obtain ⟨i, _, rfl⟩ := List.mem_map.mp hv
  refine maxList_eq_zero _ ?_
  intro w hw
  obtain ⟨j, _, rfl⟩ := List.mem_map.mp hw
  exact nodeDelta_self g i j

/-- After a sweep, the per-node deltas vanish on the boundary rows, so the
maximum over the whole array equals the maximum over the free nodes. -/
lemma errAll_sweep_eq_errFree (Nc Nr : ℕ) (g : Grid) :
    errAll Nc Nr g (sweep Nc Nr g) = errFree Nc Nr g (sweep Nc Nr g) := by
  unfold errAll errFree
  congr 1
  refine List.map_congr_left ?_
  intro i _
  cases Nr with
  | zero => rfl
  | succ Nr1 =>
    cases Nr1 with
    | zero =>
      have h0 : nodeDelta g (sweep Nc 1 g) i 0 = 0 :=
        nodeDelta_eq_zero g _ i 0 (sweep_x_frame Nc 1 g i 0 (Or.inl rfl))
          (sweep_y_frame Nc 1 g i 0 (Or.inl rfl))
      rw [show List.range 1 = [0] from rfl, List.map_cons, List.map_nil,
        maxList_cons, h0, show (1 : ℕ) - 2 = 0 from rfl]
      simp [maxList]
    | succ n =>
      have h0 : nodeDelta g (sweep Nc (n + 2) g) i 0 = 0 :=
        nodeDelta_eq_zero g _ i 0 (sweep_x_frame Nc (n + 2) g i 0 (Or.inl rfl))
          (sweep_y_frame Nc (n + 2) g i 0 (Or.inl rfl))
      have hTop : nodeDelta g (sweep Nc (n + 2) g) i (n + 1) = 0 :=
        nodeDelta_eq_zero g _ i (n + 1)
          (sweep_x_frame Nc (n + 2) g i (n + 1) (Or.inr (Or.inl (by omega))))
          (sweep_y_frame Nc (n + 2) g i (n + 1) (Or.inr (Or.inl (by omega))))
      rw [List.range_succ, List.map_append, maxList_append,
        List.range_succ_eq_map, List.map_cons, maxList_cons, List.map_map]
      simp only [List.map_cons, List.map_nil, h0, hTop]
      rw [maxList_cons, show maxList ([] : List ℚ) = 0 from rfl]
      rw [max_eq_right (maxList_nonneg _), max_self, max_eq_left (maxList_nonneg _)]
      rw [show n + 2 - 2 = n from by omega]
      rfl

/-- The iteration runs at most `n` sweeps: the result grid is an `m`-fold
sweep of the start grid for some `m ≤ n`, and a reported convergence index
`k` satisfies `it ≤ k < it + n`. -/
lemma gsRun_iterate (Nc Nr : ℕ) (tol : ℚ) :
    ∀ (n it : ℕ) (g : Grid), ∃ m, m ≤ n ∧
      (gsRun Nc Nr tol n it g).1 = (sweep Nc Nr)^[m] g ∧
      (∀ k, (gsRun Nc Nr tol n it g).2 = some k → it ≤ k ∧ k < it + n) := by
  intro n
  induction n with
  | zero =>
    intro it g
    exact ⟨0, Nat.le_refl 0, rfl, fun k hk => by cases hk⟩
  | succ n ih =>
    intro it g
    by_cases hc : errAll Nc Nr g (sweep Nc Nr g) < tol
    · refine ⟨1, by omega, ?_, ?_⟩
      · simp [gsRun, hc]
      · intro k hk
        simp [gsRun, hc] at hk
        omega
    · obtain ⟨m, hm, h1, h2⟩ := ih (it + 1) (sweep Nc Nr g)
      refine ⟨m + 1, by omega, ?_, ?_⟩
      · simp only [gsRun, if_neg hc, h1, Function.iterate_succ_apply]
      · intro k hk
        simp only [gsRun, if_neg hc] at hk
        have := h2 k hk
        omega

/-- Row `j = 0` of the initial grid is the inner boundary (`x` part). -/
lemma buildInitGrid_x_row0 (Nr : ℕ) (hNr : 2 ≤ Nr) (xin yin xout yout : ℕ → ℚ)
    (i : ℕ) : (buildInitGrid Nr xin yin xout yout).x i 0 = xin i := by
  simp only [buildInitGrid]
  split_ifs <;> first | rfl | omega

/-- Row `j = 0` of the initial grid is the inner boundary (`y` part). -/
lemma buildInitGrid_y_row0 (Nr : ℕ) (hNr : 2 ≤ Nr) (xin yin xout yout : ℕ → ℚ)
    (i : ℕ) : (buildInitGrid Nr xin yin xout yout).y i 0 = yin i := by
  simp only [buildInitGrid]
  split_ifs <;> first | rfl | omega

/-- Row `j = Nr-1` of the initial grid is the outer boundary (`x` part). -/
lemma buildInitGrid_x_rowLast (Nr : ℕ) (hNr : 2 ≤ Nr) (xin yin xout yout : ℕ → ℚ)
    (i : ℕ) : (buildInitGrid Nr xin yin xout yout).x i (Nr - 1) = xout i := by
  simp only [buildInitGrid]
  split_ifs <;> first | rfl | omega

/-- Row `j = Nr-1` of the initial grid is the outer boundary (`y` part). -/
lemma buildInitGrid_y_rowLast (Nr : ℕ) (hNr : 2 ≤ Nr) (xin yin xout yout : ℕ → ℚ)
    (i : ℕ) : (buildInitGrid Nr xin yin xout yout).y i (Nr - 1) = yout i := by
  simp only [buildInitGrid]
  split_ifs <;> first | rfl | omega

/-- The source's per-node update and the claim's wording of it agree: the
halved/quartered central differences and the inlined denominator are the
same rational expressions. -/
lemma updateNode_eq_updateNodeSpec (Nc : ℕ) (g : Grid) (i j : ℕ) :
    updateNode Nc g i j = updateNodeSpec Nc g i j := by
  ext a b
  all_goals
    simp only [updateNode, updateNodeSpec, x_newAt, y_newAt, alphaAt, betaAt, gammaAt,
      x_xiAt, x_etaAt, y_xiAt, y_etaAt, x_xi_etaAt, y_xi_etaAt, metricDenom]
  all_goals split_ifs with h
  any_goals rfl
  all_goals ring_nf

/-- The full sweep agrees with the claim's wording of the sweep. -/
lemma sweep_eq_sweepSpec (Nc Nr : ℕ) (g : Grid) :
    sweep Nc Nr g = sweepSpec Nc Nr g := by
  simp only [sweep, sweepSpec, sweepRow, updateNode_eq_updateNodeSpec]

lemma wrapPred_4_0 : wrapPred 4 0 = 3 := by decide

lemma wrapPred_3_0 : wrapPred 3 0 = 2 := by decide

lemma wrapPred_1_0 : wrapPred 1 0 = 0 := by decide

/-- The sweep at `Nc = 4`, `Nr = 3` is the Gauss-Seidel chain of the four
free-node updates `(0,1), (1,1), (2,1), (3,1)`, in source order. -/
lemma sweep_circle_unfold : sweep 4 3 gridCircle =
    updateNode 4 (updateNode 4 (updateNode 4 (updateNode 4 gridCircle 0 1) 1 1) 2 1) 3 1 := rfl

lemma sweep_zero_unfold : sweep 3 3 gridZero =
    updateNode 3 (updateNode 3 (updateNode 3 gridZero 0 1) 1 1) 2 1 := rfl

/-- First update of the circular grid: `x[0,1]` moves from `3/2` to
`(1-1.8)*(3/2) + 1.8*(27/20) = 123/100` — the linear blend of concentric
circles is not a fixed point of the discrete update. -/
lemma updateNode_circle_x01 : (updateNode 4 gridCircle 0 1).x 0 1 = 123/100 := by
  norm_num [updateNode, x_newAt, alphaAt, betaAt, gammaAt, x_xiAt, x_etaAt, y_xiAt,
    y_etaAt, x_xi_etaAt, metricDenom, wrapPred_4_0, gridCircle, rLin, cos4, sin4, omegaSOR]

lemma updateNode_circle_y01 : (updateNode 4 gridCircle 0 1).y 0 1 = 0 := by
  norm_num [updateNode, y_newAt, alphaAt, betaAt, gammaAt, x_xiAt, x_etaAt, y_xiAt,
    y_etaAt, y_xi_etaAt, metricDenom, wrapPred_4_0, gridCircle, rLin, cos4, sin4, omegaSOR]

lemma sweep_circle_x01 : (sweep 4 3 gridCircle).x 0 1 = 123/100 := by
  rw [sweep_circle_unfold,
    updateNode_x_ne 4 _ 3 1 0 1 (by simp),
    updateNode_x_ne 4 _ 2 1 0 1 (by simp),
    updateNode_x_ne 4 _ 1 1 0 1 (by simp)]
  exact updateNode_circle_x01

lemma sweep_circle_y01 : (sweep 4 3 gridCircle).y 0 1 = 0 := by
  rw [sweep_circle_unfold,
    updateNode_y_ne 4 _ 3 1 0 1 (by simp),
    updateNode_y_ne 4 _ 2 1 0 1 (by simp),
    updateNode_y_ne 4 _ 1 1 0 1 (by simp)]
  exact updateNode_circle_y01

lemma gridCircle_x01 : gridCircle.x 0 1 = 3/2 := by
  norm_num [gridCircle, rLin, cos4]

lemma nodeDelta_circle_01 : nodeDelta gridCircle (sweep 4 3 gridCircle) 0 1 = 27/100 := by
  rw [nodeDelta, sweep_circle_x01, sweep_circle_y01, gridCircle_x01]
  norm_num [gridCircle, rLin, sin4]

/-- The first sweep of the circular grid changes some node by `27/100`, so
its residual is at least `27/100`. -/
lemma errAll_circle_ge : (27/100 : ℚ) ≤ errAll 4 3 gridCircle (sweep 4 3 gridCircle) := by
  unfold errAll
  have h1 : nodeDelta gridCircle (sweep 4 3 gridCircle) 0 1 ∈
      (List.range 3).map (fun j => nodeDelta gridCircle (sweep 4 3 gridCircle) 0 j) :=
    List.mem_map.mpr ⟨1, by decide, rfl⟩
  have h2 : maxList ((List.range 3).map
        (fun j => nodeDelta gridCircle (sweep 4 3 gridCircle) 0 j)) ∈
      (List.range 4).map (fun i =>
        maxList ((List.range 3).map (fun j => nodeDelta gridCircle (sweep 4 3 gridCircle) i j))) :=
    List.mem_map.mpr ⟨0, by decide, rfl⟩
  calc (27/100 : ℚ) = nodeDelta gridCircle (sweep 4 3 gridCircle) 0 1 :=
        nodeDelta_circle_01.symm
    _ ≤ maxList ((List.range 3).map
          (fun j => nodeDelta gridCircle (sweep 4 3 gridCircle) 0 j)) :=
        le_maxList _ _ h1
    _ ≤ _ := le_maxList _ _ h2

/-- On the all-zero grid every update is the SOR blend of `0` with the
division `0/0` (numpy: `nan`; here: `0`), leaving the grid unchanged. -/
lemma updateNode_zero (i : ℕ) : updateNode 3 gridZero i 1 = gridZero := by
  ext a b
  all_goals
    simp [updateNode, gridZero, x_newAt, y_newAt, alphaAt, betaAt, gammaAt, x_xiAt,
      x_etaAt, y_xiAt, y_etaAt, x_xi_etaAt, y_xi_etaAt, metricDenom]

lemma sweep_zero : sweep 3 3 gridZero = gridZero := by
  rw [sweep_zero_unfold, updateNode_zero 0, updateNode_zero 1, updateNode_zero 2]

/-- On the all-zero `3 × 3` grid the run converges at iteration `0`. -/
lemma gsRun_zero : gsRun 3 3 tolerance 1 0 gridZero = (gridZero, some 0) := by
  norm_num [gsRun, sweep_zero, errAll_self, tolerance]

/-- At the fully degenerate grid every central difference vanishes:
`alpha + gamma = 0` at the first visited free node. -/
lemma alphaGamma_deg : alphaAt 3 gridDeg 0 1 + gammaAt gridDeg 0 1 = 0 := by
  norm_num [alphaAt, gammaAt, x_xiAt, x_etaAt, y_xiAt, y_etaAt, wrapPred_3_0, gridDeg]

lemma metricDenom_deg : metricDenom 3 gridDeg 0 1 = 0 := by
  rw [metricDenom, alphaGamma_deg, mul_zero]

/-- The unguarded source update still executes on the degenerate grid: with
the `ℚ` convention `0/0 = 0` the node moves from `1` to
`(1-1.8)*1 + 1.8*0 = -4/5` (numpy would produce `nan` here); either way the
code performs the division instead of raising anything. -/
lemma updateNode_deg_x01 : (updateNode 3 gridDeg 0 1).x 0 1 = -4/5 := by
  norm_num [updateNode, x_newAt, alphaAt, betaAt, gammaAt, x_xiAt, x_etaAt, y_xiAt,
    y_etaAt, x_xi_etaAt, metricDenom, wrapPred_3_0, gridDeg, omegaSOR]

lemma guarded_deg : updateNodeGuardedSpec 3 gridDeg 0 1
    = Except.error MeshError.degenerateGeometry := by
  simp [updateNodeGuardedSpec, alphaGamma_deg]

lemma metricDenom_W : metricDenom 3 gridW 0 1 = 5/2 := by
  norm_num [metricDenom, alphaAt, gammaAt, x_xiAt, x_etaAt, y_xiAt, y_etaAt,
    wrapPred_3_0, gridW]

lemma gridSingleton_x01 : gridSingleton.x 0 1 = 41/78 := by
  norm_num [gridSingleton, buildInitGrid]

/-- At `Nc = 1` the update degenerates to `x_new = x[0,j]` and the smoother
happily runs on the one-point loop. -/
lemma updateNode_singleton_x01 : (updateNode 1 gridSingleton 0 1).x 0 1 = 41/78 := by
  norm_num [updateNode, x_newAt, alphaAt, betaAt, gammaAt, x_xiAt, x_etaAt, y_xiAt,
    y_etaAt, x_xi_etaAt, metricDenom, wrapPred_1_0, gridSingleton, buildInitGrid, omegaSOR]

lemma checkInputs_singleton : checkInputsSpec [0] [0] [0] Rfarfield (NcOf [(0 : ℚ)]) tolerance
    = Except.error MeshError.invalidGeometry := by
  simp [checkInputsSpec]

/-- The code's far-field formula at `Nc = 1`, `i = 0` gives exactly the
rational point `(41/2, 0)` used in `gridSingleton`. -/
lemma farfield_one_point : (20 : ℝ) * Real.cos (2 * Real.pi * 0 / 1) + 1/2 = 41/2
    ∧ (20 : ℝ) * Real.sin (2 * Real.pi * 0 / 1) = 0 := by
  norm_num

lemma NcOf_singleton : NcOf [(0 : ℚ)] = 1 := by decide

/-- C1: for every grid with `Nc ≥ 3` and `Nr ≥ 3`, one smoothing sweep is
exactly the claim's sweep — the in-place Gauss-Seidel pass in the fixed
nested order (outer `i` in `[0,Nc)`, inner `j` in `[1,Nr-2]`) whose per-node
update uses the periodic/clamped neighbours, the central differences, the
metric coefficients, the cross derivative and SOR with `omega = 1.8` exactly
as the claim spells them — and it touches only the free nodes: rows `j = 0`
and `j = Nr-1` and all `i ≥ Nc` are left unchanged. -/
theorem C1_sweep_is_claim_sweep (Nc Nr : ℕ) (g : Grid)
    (_hNc : 3 ≤ Nc) (_hNr : 3 ≤ Nr) :
    sweep Nc Nr g = sweepSpec Nc Nr g ∧
    (∀ a b, b = 0 ∨ Nr - 1 ≤ b ∨ Nc ≤ a →
      (sweep Nc Nr g).x a b = g.x a b ∧ (sweep Nc Nr g).y a b = g.y a b) :=
  ⟨sweep_eq_sweepSpec Nc Nr g,
    fun a b hb => ⟨sweep_x_frame Nc Nr g a b hb, sweep_y_frame Nc Nr g a b hb⟩⟩

/-- C1, witness at `Nc = Nr = 3` on the all-zero grid. -/
theorem C1_sweep_is_claim_sweep_witness :
    sweep 3 3 gridZero = sweepSpec 3 3 gridZero :=
  (C1_sweep_is_claim_sweep 3 3 gridZero (by decide) (by decide)).1

/-- C2: for every `Nr ≥ 3`, every boundary pair and any number of sweeps,
the solver leaves rows `j = 0` and `j = Nr-1` exactly equal to the inner and
outer boundary set before the solve, and no sweep ever writes to either
boundary row of any grid. -/
theorem C2_boundary_rows_fixed (Nc Nr n it i : ℕ) (tol : ℚ)
    (xin yin xout yout : ℕ → ℚ) (hNr : 3 ≤ Nr) :
    (((gsRun Nc Nr tol n it (buildInitGrid Nr xin yin xout yout)).1).x i 0 = xin i ∧
     ((gsRun Nc Nr tol n it (buildInitGrid Nr xin yin xout yout)).1).y i 0 = yin i ∧
     ((gsRun Nc Nr tol n it (buildInitGrid Nr xin yin xout yout)).1).x i (Nr - 1) = xout i ∧
     ((gsRun Nc Nr tol n it (buildInitGrid Nr xin yin xout yout)).1).y i (Nr - 1) = yout i) ∧
    (∀ (g : Grid) (j : ℕ), j = 0 ∨ j = Nr - 1 →
      (sweep Nc Nr g).x i j = g.x i j ∧ (sweep Nc Nr g).y i j = g.y i j) := by
  constructor
  · refine ⟨?_, ?_, ?_, ?_⟩
    · rw [gsRun_x_frame Nc Nr tol n it _ i 0 (Or.inl rfl)]
      exact buildInitGrid_x_row0 Nr (by omega) xin yin xout yout i
    · rw [gsRun_y_frame Nc Nr tol n it _ i 0 (Or.inl rfl)]
      exact buildInitGrid_y_row0 Nr (by omega) xin yin xout yout i
    · rw [gsRun_x_frame Nc Nr tol n it _ i (Nr - 1) (Or.inr (Or.inl (le_refl _)))]
      exact buildInitGrid_x_rowLast Nr (by omega) xin yin xout yout i
    · rw [gsRun_y_frame Nc Nr tol n it _ i (Nr - 1) (Or.inr (Or.inl (le_refl _)))]
      exact buildInitGrid_y_rowLast Nr (by omega) xin yin xout yout i
  · intro g j hj
    rcases hj with rfl | rfl
    · exact ⟨sweep_x_frame Nc Nr g i 0 (Or.inl rfl), sweep_y_frame Nc Nr g i 0 (Or.inl rfl)⟩
    · exact ⟨sweep_x_frame Nc Nr g i (Nr - 1) (Or.inr (Or.inl (le_refl _))),
        sweep_y_frame Nc Nr g i (Nr - 1) (Or.inr (Or.inl (le_refl _)))⟩

/-- C2, witness: a concrete `3 × 3` run keeps its inner boundary value. -/
theorem C2_boundary_rows_fixed_witness :
    ((gsRun 3 3 tolerance 1 0 (buildInitGrid 3 (fun _ => 1) (fun _ => 2)
      (fun _ => 3) (fun _ => 4))).1).x 0 0 = 1 :=
  (C2_boundary_rows_fixed 3 3 1 0 0 tolerance (fun _ => 1) (fun _ => 2)
    (fun _ => 3) (fun _ => 4) (by decide)).1.1

/-- C3: the residual of a sweep computed over the whole array equals the
residual over the free nodes (the boundary rows contribute zero); the loop
stops exactly when `err < tol` after a whole sweep against the pre-sweep
snapshot; and a full run with the source's `tolerance`/`maxIter` performs at
most `maxIter = 5000` sweeps, any reported convergence index lying below
`maxIter`. -/
theorem C3_convergence_monitor :
    (∀ Nc Nr (g : Grid),
      errAll Nc Nr g (sweep Nc Nr g) = errFree Nc Nr g (sweep Nc Nr g)) ∧
    (∀ Nc Nr (tol : ℚ) (n it : ℕ) (g : Grid),
      gsRun Nc Nr tol (n + 1) it g =
        if errAll Nc Nr g (sweep Nc Nr g) < tol then (sweep Nc Nr g, some it)
        else gsRun Nc Nr tol n (it + 1) (sweep Nc Nr g)) ∧
    (∀ Nc Nr (g : Grid), ∃ m, m ≤ maxIter ∧
      (gsRun Nc Nr tolerance maxIter 0 g).1 = (sweep Nc Nr)^[m] g ∧
      ∀ k, (gsRun Nc Nr tolerance maxIter 0 g).2 = some k → k < maxIter) := by
  refine ⟨errAll_sweep_eq_errFree, fun Nc Nr tol n it g => rfl, ?_⟩
  intro Nc Nr g
  obtain ⟨m, hm, h1, h2⟩ := gsRun_iterate Nc Nr tolerance maxIter 0 g
  refine ⟨m, hm, h1, ?_⟩
  intro k hk
  have := h2 k hk
  omega

/-- C3, witness: on the all-zero `3 × 3` grid the full run converges at
iteration `0`, which indeed lies below `maxIter`. -/
theorem C3_convergence_monitor_witness :
    (gsRun 3 3 tolerance maxIter 0 gridZero).2 = some 0 ∧ 0 < maxIter := by
  have hcond : errAll 3 3 gridZero (sweep 3 3 gridZero) < tolerance := by
    rw [sweep_zero, errAll_self]
    norm_num [tolerance]
  have hstep : gsRun 3 3 tolerance maxIter 0 gridZero =
      if errAll 3 3 gridZero (sweep 3 3 gridZero) < tolerance
      then (sweep 3 3 gridZero, some 0)
      else gsRun 3 3 tolerance 4999 1 (sweep 3 3 gridZero) := rfl
  have h0 : (gsRun 3 3 tolerance maxIter 0 gridZero).2 = some 0 := by
    rw [hstep, if_pos hcond]
  obtain ⟨m, _, _, hk⟩ := C3_convergence_monitor.2.2 3 3 gridZero
  exact ⟨h0, hk 0 h0⟩

/-- C4, counterexample: at the degenerate grid (all points equal) the metric
denominator at the first visited free node is `0`; the spec's guarded update
fails with `DegenerateGeometry` there, but the source's update executes the
division anyway (with the embedding's `0/0 = 0` standing in for numpy's
`nan`) and writes a new value; the source therefore does not refine the
guarded update. -/
theorem C4_counterexample :
    updateNodeGuardedSpec 3 gridDeg 0 1 = Except.error MeshError.degenerateGeometry ∧
    metricDenom 3 gridDeg 0 1 = 0 ∧
    (updateNode 3 gridDeg 0 1).x 0 1 = -4/5 ∧
    gridDeg.x 0 1 = 1 ∧
    updateNodeGuardedSpec 3 gridDeg 0 1 ≠ Except.ok (updateNode 3 gridDeg 0 1) := by
  refine ⟨guarded_deg, metricDenom_deg, updateNode_deg_x01, rfl, ?_⟩
  rw [guarded_deg]
  intro hcontra
  exact Except.noConfusion hcontra

/-- C4, amended: the code has no degeneracy guard at all; whenever the
denominator `2*(alpha+gamma)` is nonzero the guarded update of the spec and
the source's unguarded update agree, and in the degenerate case the source
simply divides (numpy: `nan`), as the counterexample shows. -/
theorem C4_guard_agreement (Nc : ℕ) (g : Grid) (i j : ℕ)
    (h : metricDenom Nc g i j ≠ 0) :
    updateNodeGuardedSpec Nc g i j = Except.ok (updateNode Nc g i j) := by
  have hs : alphaAt Nc g i j + gammaAt g i j ≠ 0 := by
    intro h0
    exact h (by rw [metricDenom, h0, mul_zero])
  simp [updateNodeGuardedSpec, hs]

/-- C4, witness at a concrete non-degenerate node. -/
theorem C4_guard_agreement_witness :
    metricDenom 3 gridW 0 1 ≠ 0 ∧
    updateNodeGuardedSpec 3 gridW 0 1 = Except.ok (updateNode 3 gridW 0 1) := by
  have h : metricDenom 3 gridW 0 1 ≠ 0 := by
    rw [metricDenom_W]
    norm_num
  exact ⟨h, C4_guard_agreement 3 gridW 0 1 h⟩

/-- C5: what the source does when the iteration budget runs out without the
tolerance test firing: the loop hands back the last iterate with no
convergence signal (`none` — in the code, the absence of the "converged"
print), and the export step receives that grid exactly as in the converged
case; no `MaxIterExceeded`-like outcome exists anywhere in the result. -/
theorem C5_exhaustion_is_silent (Nc Nr : ℕ) (tol : ℚ) (it : ℕ) (g : Grid) :
    gsRun Nc Nr tol 0 it g = (g, none) ∧
    exportedGrid (gsRun Nc Nr tol 0 it g) = g ∧
    (∀ r : Grid × Option ℕ, exportedGrid r = r.1) :=
  ⟨rfl, rfl, fun _ => rfl⟩

/-- C6, counterexample: the invalid single-point input
`xCoords = yUpper = yLower = [0]` (surface with `N = 1 < 2` points, loop
with `Nc = 1 < 3`) is rejected by the spec's checker, yet the source builds
the initial grid (its first free node is the blend value `41/78`) and the
smoother runs on it without any error; the far-field equalities check that
`gridSingleton`'s outer point is exactly what the code's
`20*cos(0) + 0.5, 20*sin(0)` evaluates to at `Nc = 1`. -/
theorem C6_counterexample :
    checkInputsSpec [0] [0] [0] Rfarfield (NcOf [(0 : ℚ)]) tolerance
      = Except.error MeshError.invalidGeometry ∧
    NcOf [(0 : ℚ)] = 1 ∧
    gridSingleton.x 0 1 = 41/78 ∧
    (updateNode 1 gridSingleton 0 1).x 0 1 = 41/78 ∧
    ((20 : ℝ) * Real.cos (2 * Real.pi * 0 / 1) + 1/2 = 41/2 ∧
     (20 : ℝ) * Real.sin (2 * Real.pi * 0 / 1) = 0) :=
  ⟨checkInputs_singleton, NcOf_singleton, gridSingleton_x01, updateNode_singleton_x01,
    farfield_one_point⟩

/-- C6, amended: the generation call performs no input validation at all —
for every input it deduplicates the loop unconditionally (length
`2N-2` for `N ≥ 2` surface points, `N` otherwise, never an error), and the
far-field radius it would validate is not even an input: it is fixed
internally at `20`. -/
theorem C6_no_validation (xs : List ℚ) :
    NcOf xs = (if 2 ≤ xs.length then 2 * xs.length - 2 else xs.length) ∧
    Rfarfield = 20 := by
  constructor
  · simp only [NcOf, xairfoil, List.length_append, List.length_reverse,
      List.length_dropLast, List.length_drop]
    split_ifs <;> omega
  · rfl

/-- C7: the caller passes four arguments
(`createEllipticStructuredOGrid(xCoords, yUpper, yLower, Nr)`,
AirfoilMesher.py line 167) to a three-parameter function
(EllipticStructuredOgrid.py line 118) — the elliptic path raises a
`TypeError` — and the radial count the solver actually uses is the
internal constant `40`, not the caller's `Nr`. -/
theorem C7_radial_count_not_caller_supplied :
    ellipticCallArgCount ≠ createEllipticParamCount ∧
    internalNr = 40 ∧
    (∀ callerNr : ℕ, callerNr ≠ 40 → internalNr ≠ callerNr) := by
  refine ⟨by decide, rfl, ?_⟩
  intro c hc h40
  exact hc h40.symm

/-- C8, counterexample: at `Nc = 3`, `Nr = 3` the exporter emits `6` quads
(`for j in range(Nr-1)`), not the `3` the claim's range `j ∈ [0, Nr-2)`
would give; the two lists differ. -/
theorem C8_counterexample :
    gmshQuads 3 3 ≠ gmshQuadsClaim 3 3 ∧
    (gmshQuads 3 3).length = 6 ∧ (gmshQuadsClaim 3 3).length = 3 := by
  decide

/-- C8, amended: with the quad range repaired to `j ∈ [0, Nr-1)` the
exporter is exactly the claim's description: node ids `j*Nc + i + 1`
(derived from `j*Nc + i`), periodic quad connectivity
`(i,j)-(ip,j)-(ip,j+1)-(i,j+1)`, inner edges `(i,0)-(ip,0)` in the group
named "airfoil" and outer edges `(i,Nr-1)-(ip,Nr-1)` in the group named
"farfield". -/
theorem C8_exporter_connectivity (Nc Nr : ℕ) (g : Grid) :
    gmshNodes Nc Nr g = (List.range Nr).flatMap (fun j => (List.range Nc).map (fun i =>
      (nodeId Nc i j, g.x i j, g.y i j))) ∧
    gmshQuads Nc Nr = gmshQuadsSpecFixed Nc Nr ∧
    airfoilEdges Nc = airfoilEdgesSpec Nc ∧
    farfieldEdges Nc Nr = farfieldEdgesSpec Nc Nr ∧
    airfoilPhysicalName = "airfoil" ∧ farfieldPhysicalName = "farfield" := by
  refine ⟨rfl, rfl, ?_, rfl, rfl, rfl⟩
  unfold airfoilEdges airfoilEdgesSpec
  refine List.map_congr_left ?_
  intro i _
  simp [nodeId]

/-- C9, counterexample: at `Nc = 4`, `Nr = 3`, `R = 2` — unit inner circle,
concentric outer circle, linear-interpolation grid, all coordinates exact —
the very first per-node update moves `x[0,1]`, and the residual of the first
full sweep is not below the tolerance: the grid is not a fixed point and
there is no zero-iteration convergence. -/
theorem C9_counterexample :
    (updateNode 4 gridCircle 0 1).x 0 1 ≠ gridCircle.x 0 1 ∧
    ¬ (errAll 4 3 gridCircle (sweep 4 3 gridCircle) < tolerance) := by
  constructor
  · rw [updateNode_circle_x01, gridCircle_x01]
    norm_num
  · intro hlt
    have hge := errAll_circle_ge
    rw [tolerance] at hlt
    linarith

/-- C9, amended: the circular linear-interpolation grid is not in general a
fixed point of the per-node relaxation: at `Nc = 4`, `Nr = 3`, `R = 2` the
sweep moves `x[0,1]` from `3/2` to `123/100` and the sweep residual is at
least `27/100`, far above the tolerance `1e-6`; `gridCircle` is indeed the
code's linear blend of the two circles. -/
theorem C9_circle_not_fixed_point :
    ((sweep 4 3 gridCircle).x 0 1 = 123/100 ∧ gridCircle.x 0 1 = 3/2) ∧
    ((27/100 : ℚ) ≤ errAll 4 3 gridCircle (sweep 4 3 gridCircle) ∧
      tolerance < 27/100) ∧
    (∀ i j, i < 4 → j < 3 →
      gridCircle.x i j = (buildInitGrid 3 cos4 sin4
        (fun a => 2 * cos4 a) (fun a => 2 * sin4 a)).x i j ∧
      gridCircle.y i j = (buildInitGrid 3 cos4 sin4
        (fun a => 2 * cos4 a) (fun a => 2 * sin4 a)).y i j) := by
  refine ⟨⟨sweep_circle_x01, gridCircle_x01⟩,
    ⟨errAll_circle_ge, by norm_num [tolerance]⟩, ?_⟩
  intro i j hi hj
  interval_cases i <;> interval_cases j <;> constructor <;>
    norm_num [gridCircle, rLin, cos4, sin4, buildInitGrid]

/-- C10: for every requested `Nc ≥ 2` the NACA4 generator emits
`floor(Nc/2) + 1` abscissae per surface, and the deduplicated loop handed to
the smoother has `2*floor(Nc/2)` points — equal to `Nc` for even `Nc`, and
silently `Nc - 1` for odd `Nc`. -/
theorem C10_loop_point_count (Nc : ℕ) (h : 2 ≤ Nc) :
    nPoints Nc = Nc / 2 + 1 ∧
    (xCoordsUniform Nc).length = nPoints Nc ∧
    NcOf (xCoordsUniform Nc) = 2 * (Nc / 2) ∧
    (Nc % 2 = 0 → NcOf (xCoordsUniform Nc) = Nc) ∧
    (Nc % 2 = 1 → NcOf (xCoordsUniform Nc) = Nc - 1) := by
  have hlen : (xCoordsUniform Nc).length = nPoints Nc := by
    simp only [xCoordsUniform, List.length_map, List.length_range]
  have hNcOf : NcOf (xCoordsUniform Nc) = 2 * (Nc / 2) := by
    simp only [NcOf, xairfoil, List.length_append, List.length_reverse,
      List.length_dropLast, List.length_drop, hlen]
    simp only [nPoints]
    omega
  exact ⟨rfl, hlen, hNcOf, fun he => by rw [hNcOf]; omega,
    fun ho => by rw [hNcOf]; omega⟩

/-- C10, witness at the odd count `Nc = 5`: the loop has `4 = 5 - 1`
points. -/
theorem C10_loop_point_count_witness :
    NcOf (xCoordsUniform 5) = 5 - 1 ∧ 5 % 2 = 1 :=
  ⟨(C10_loop_point_count 5 (by norm_num)).2.2.2.2 (by norm_num), by norm_num⟩
